import Mathlib

/-!
Verification development for the authorization-and-safety-gating core of the
repository: the `enter_plan_mode` tool (confirmation protocol, dynamic policy
rule injection), the browser URL guard, the action rate limiter, the overlay
diagnostics, and the browser action primitives.

Machine integers are modelled as `Int`/`Nat`; JavaScript regular expressions
are modelled semantically by executable character-list matchers; fallible
asynchronous code is modelled in the `Except` monad.
-/

set_option autoImplicit false

/-- Decision of the policy engine (`PolicyDecision` in `policy/types.ts`,
referenced from `enter-plan-mode.ts`; the enum itself is outside `src/`). -/
inductive PolicyDecision where
  | allow
  | deny
  | askUser
deriving DecidableEq, Repr

/-- Approval modes (`ApprovalMode` in `policy/types.ts`; the tool only ever
uses `PLAN`, the other constructors stand for the remaining modes). -/
inductive ApprovalMode where
  | defaultMode
  | autoEdit
  | yolo
  | plan
deriving DecidableEq, Repr

/-- Outcome of a human confirmation (`ToolConfirmationOutcome` in `tools.ts`;
per the spec: `Proceed`, `ProceedAlways`, `Cancel`). -/
inductive ToolConfirmationOutcome where
  | proceedOnce
  | proceedAlways
  | cancel
deriving DecidableEq, Repr

/-- Result of a plan-mode tool invocation (`ToolResult` of `tools.ts` as used
by `enter-plan-mode.ts`: `llmContent` and `returnDisplay` are strings there). -/
structure PlanToolResult where
  llmContent : String
  returnDisplay : String
deriving DecidableEq, Repr

/-- A policy rule as constructed by `EnterPlanModeInvocation.execute`
(enter-plan-mode.ts:168-176).  `argsPattern` stores the source text of the
`RegExp` built at line 171; its matching semantics is modelled separately by
`planArgsMatch`. -/
structure PolicyRule where
  toolName : String
  argsPattern : String
  decision : PolicyDecision
  priority : Nat
  modes : List ApprovalMode
  source : String
deriving DecidableEq, Repr

/-- Parameters of the tool (`EnterPlanModeParams`, enter-plan-mode.ts:21-32). -/
structure EnterPlanModeParams where
  reason : Option String := none
  path : Option String := none
  allowed_tools : Option (List String) := none

/-- The slice of `Config` that `EnterPlanModeInvocation` consults:
`getTargetDir` and the external path-validation collaborator
`validatePathAccess` (returns an error message, or `none` for success). -/
structure ConfigModel where
  targetDir : String
  validatePathAccess : String → Option String

/-- Observable side effects of one `execute` run together with its result:
the rules passed to `config.addPolicyRule` (in call order) and the argument of
`config.setApprovalMode` (`none` when it was never called). -/
structure ExecEffects where
  result : PlanToolResult
  addedRules : List PolicyRule
  approvalModeSet : Option ApprovalMode

/-- Does `a` occur at the head of `b`?  (Character-level `startsWith`.) -/
def listLeads : List Char → List Char → Bool
  | [], _ => true
  | _ :: _, [] => false
  | a :: as, b :: bs => a = b && listLeads as bs

/-- Strip `a` from the head of `b`, returning the remainder. -/
def stripHead : List Char → List Char → Option (List Char)
  | [], s => some s
  | _ :: _, [] => none
  | a :: as, b :: bs => if a = b then stripHead as bs else none

/-- Split a character list on `'/'` (used to model Node's posix path
normalization inside `path.resolve`). -/
def splitSlash : List Char → List (List Char)
  | [] => [[]]
  | '/' :: rest => [] :: splitSlash rest
  | c :: rest =>
    match splitSlash rest with
    | [] => [[c]]
    | seg :: segs => (c :: seg) :: segs

/-- Stack-based segment normalization of an absolute posix path: empty and
`.` segments are dropped, `..` pops (or is dropped at the root), as in Node's
`path.posix` normalization. -/
def normalizeSegs (stack : List (List Char)) : List (List Char) → List (List Char)
  | [] => stack.reverse
  | seg :: rest =>
    if seg = [] ∨ seg = ['.'] then normalizeSegs stack rest
    else if seg = ['.', '.'] then
      match stack with
      | [] => normalizeSegs [] rest
      | _ :: stack' => normalizeSegs stack' rest
    else normalizeSegs (seg :: stack) rest

/-- Join path segments with `'/'` separators. -/
def joinSegs : List (List Char) → List Char
  | [] => []
  | [seg] => seg
  | seg :: rest => seg ++ '/' :: joinSegs rest

/-- Model of Node `path.resolve(base, p)` (enter-plan-mode.ts:146-149) for an
absolute `base`: if `p` is absolute it is normalized on its own, otherwise
`base + "/" + p` is normalized.  (Node would prepend the process working
directory when both arguments are relative; `config.getTargetDir()` is an
absolute path in the repository, so that case is not modelled.) -/
def pathResolve (base p : String) : String :=
  let full := if p.data.head? = some '/' then p.data else base.data ++ '/' :: p.data
  String.mk ('/' :: joinSegs (normalizeSegs [] (splitSlash full)))

/-- The characters escaped by `absolutePath.replace(/[.*+?^${}()|[\]\\]/g, '\\$&')`
(enter-plan-mode.ts:160). -/
def regexSpecialChars : List Char :=
  ['.', '*', '+', '?', '^', '$', '\x7b', '\x7d', '(', ')', '|', '[', ']', '\\']

/-- Model of the escaping at enter-plan-mode.ts:160: every regex special
character is preceded by a backslash, making the whole path literal. -/
def escapeRegex (s : String) : String :=
  String.mk (s.data.map (fun c => if c ∈ regexSpecialChars then ['\\', c] else [c])).flatten

/-- The rule injected for `absolutePath` and `toolName`
(enter-plan-mode.ts:168-176): ALLOW at priority 80, gated to PLAN mode,
with pattern `"file_path":"<escaped path>(?:/.*)?"`. -/
def planModeRule (absolutePath toolName : String) : PolicyRule :=
  { toolName := toolName
    argsPattern := "\"file_path\":\"" ++ escapeRegex absolutePath ++ "(?:/.*)?\""
    decision := .allow
    priority := 80
    modes := [.plan]
    source := "PlanMode" }

/-- JavaScript line terminators, which `.` does not match. -/
def lineTermChar (c : Char) : Bool :=
  c = '\n' || c = '\r' || c = '\u2028' || c = '\u2029'

/-- The thirteen characters `"file_path":"` that precede the escaped path in
the injected pattern. -/
def needleHead : List Char :=
  ['"', 'f', 'i', 'l', 'e', '_', 'p', 'a', 't', 'h', '"', ':', '"']

/-- The literal part of the injected regex: `"file_path":"` followed by the
granted absolute path (the escaping at line 160 makes every path character
literal). -/
def needleFor (path : List Char) : List Char := needleHead ++ path

/-- After the literal part, the regex requires `(?:/.*)?"`: scanning for a
closing quote with no intervening line terminator, after an initial `/`. -/
def quoteWithinLine : List Char → Bool
  | [] => false
  | c :: rest => if c = '"' then true else if lineTermChar c then false else quoteWithinLine rest

/-- Continuation of the injected regex after the literal path: either the
closing quote immediately, or `/` then `.*` then a quote. -/
def tailOk : List Char → Bool
  | [] => false
  | c :: rest => if c = '"' then true else if c = '/' then quoteWithinLine rest else false

/-- Does the injected regex for `path` match at the very start of `s`? -/
def headMatch (path : List Char) (s : List Char) : Bool :=
  match stripHead (needleFor path) s with
  | none => false
  | some u => tailOk u

/-- Unanchored search, as performed by `RegExp.test`: try every start
position. -/
def regexSearch (path : List Char) : List Char → Bool
  | [] => headMatch path []
  | c :: t => headMatch path (c :: t) || regexSearch path t

/-- Semantics of `new RegExp(`"file_path":"${escapedPath}(?:/.*)?"`).test s`
for the granted absolute path (enter-plan-mode.ts:171). -/
def planArgsMatch (absolutePath s : String) : Bool :=
  regexSearch absolutePath.data s.data

/-- JS truthiness of an optional string (`if (this.params.path)`): present and
non-empty. -/
def strTruthy : Option String → Bool
  | none => false
  | some s => !s.isEmpty

/-- Model of the `onConfirm` callback (enter-plan-mode.ts:130-133): it stores
the outcome in `this.confirmationOutcome`.  (The accompanying
`publishPolicyUpdate` talks to the message bus, which is outside `src/`.) -/
def EnterPlanMode.onConfirm (outcome : ToolConfirmationOutcome) : Option ToolConfirmationOutcome :=
  some outcome

/-- Result of `shouldConfirmExecute`: either `false` (no confirmation needed)
or the `ToolInfoConfirmationDetails` structure (type/title/prompt). -/
inductive ShouldConfirmResult where
  | noConfirmation
  | info (type title prompt : String)
deriving DecidableEq, Repr

/-- Model of `EnterPlanModeInvocation.shouldConfirmExecute`
(enter-plan-mode.ts:108-135).  The message-bus decision is the input; the
method performs no `Config` mutation (no `addPolicyRule`/`setApprovalMode`
call occurs in its body), so it returns only the result: `ALLOW` gives
`false`, `DENY` throws the policy-denial error, `ASK_USER` returns the info
confirmation details.  `toolDisplayName || toolName` is JS string truthiness. -/
def EnterPlanMode.shouldConfirmExecute (decision : PolicyDecision)
    (toolDisplayName toolName : String) : Except String ShouldConfirmResult :=
  match decision with
  | .allow => .ok .noConfirmation
  | .deny =>
    .error ("Tool execution for \"" ++
      (if toolDisplayName.isEmpty then toolName else toolDisplayName) ++
      "\" denied by policy.")
  | .askUser =>
    .ok (.info "info" "Enter Plan Mode"
      "This will restrict the agent to read-only tools to allow for safe planning.")

/-- The display message built at enter-plan-mode.ts:182-187. -/
def planDisplayMessage (params : EnterPlanModeParams) : String :=
  let base :=
    match params.reason with
    | some r => if r.isEmpty then "Switching to Plan mode" else "Switching to Plan mode: " ++ r
    | none => "Switching to Plan mode"
  match params.path with
  | some p => if p.isEmpty then base else base ++ " (Allowed path: " ++ p ++ ")"
  | none => base

/-- Model of `EnterPlanModeInvocation.execute` (enter-plan-mode.ts:137-195) as
a pure function of the configuration, the parameters, and the stored
confirmation outcome.  Returned alongside the `ToolResult` are the policy
rules added and the approval mode set (if any). -/
def EnterPlanMode.execute (cfg : ConfigModel) (params : EnterPlanModeParams)
    (confirmationOutcome : Option ToolConfirmationOutcome) : ExecEffects :=
  match confirmationOutcome with
  | some .cancel =>
    { result := { llmContent := "User cancelled entering Plan Mode."
                  returnDisplay := "Cancelled" }
      addedRules := []
      approvalModeSet := none }
  | _ =>
    match params.path, strTruthy params.path with
    | some p, true =>
      let absolutePath := pathResolve cfg.targetDir p
      match cfg.validatePathAccess absolutePath with
      | some validationError =>
        { result := { llmContent := "Error: " ++ validationError
                      returnDisplay := "Error: Invalid path" }
          addedRules := []
          approvalModeSet := none }
      | none =>
        let allowedTools := params.allowed_tools.getD ["write_file", "replace"]
        { result := { llmContent := "Switching to Plan mode. Write access enabled for: " ++ p
                      returnDisplay := planDisplayMessage params }
          addedRules := allowedTools.map (planModeRule absolutePath)
          approvalModeSet := some .plan }
    | _, _ =>
      { result := { llmContent := "Switching to Plan mode."
                    returnDisplay := planDisplayMessage params }
        addedRules := []
        approvalModeSet := some .plan }

/-! ### URL guard (`browserSecurity.ts`, second document of `overlayDetection.ts`) -/

/-- Character-wise lowering, modelling `String.prototype.toLowerCase` (and the
`i` regex flag) on the ASCII range, where all compared constants live. -/
def lowerChars (s : String) : List Char := s.data.map Char.toLower

/-- Default allowed URL patterns (browserSecurity lines 181-188). -/
def DEFAULT_ALLOWED_PATTERNS : List String :=
  ["https://*.google.com", "https://www.google.com", "https://*.github.com",
   "https://github.com", "about:blank", "chrome://newtab"]

/-- Blocked URL patterns (browserSecurity lines 194-200). -/
def BLOCKED_PATTERNS : List String :=
  ["file://", "javascript:", "data:text/html", "chrome://extensions",
   "chrome://settings/passwords"]

/-- `isBlockedUrl` (browserSecurity lines 205-209):
`url.toLowerCase().startsWith(pattern.toLowerCase())` for some blocked pattern. -/
def isBlockedUrl (url : String) : Bool :=
  BLOCKED_PATTERNS.any (fun pattern => listLeads (lowerChars pattern) (lowerChars url))

/-- Fuel-indexed matcher behind `wildMatch`.  Every recursive call shrinks
`ps.length + s.length`, so the fuel supplied by `wildMatch` is never
exhausted; the explicit fuel only makes the recursion structural. -/
def wildMatchF : Nat → List Char → List Char → Bool
  | 0, _, _ => false
  | _ + 1, [], _ => true
  | fuel + 1, '*' :: ps, s =>
    wildMatchF fuel ps s ||
      (match s with
       | [] => false
       | c :: cs => !lineTermChar c && wildMatchF fuel ('*' :: ps) cs)
  | _ + 1, _ :: _, [] => false
  | fuel + 1, p :: ps, c :: cs => (p == c) && wildMatchF fuel ps cs

/-- Matching semantics of `patternToRegex` (browserSecurity lines 215-221)
applied via `.test`: every non-`*` pattern character is escaped and hence
literal, `*` becomes `.*` (any characters except line terminators, tried over
every possible length), the regex is `^`-anchored (prefix match) and
case-insensitive.  `wildMatch pat s` takes both sides already lowered. -/
def wildMatch (ps s : List Char) : Bool :=
  wildMatchF (ps.length + s.length + 1) ps s

/-- `patternToRegex(pattern).test(url)`. -/
def patternToRegexTest (pattern url : String) : Bool :=
  wildMatch (lowerChars pattern) (lowerChars url)

/-- `matchesAnyPattern` (browserSecurity lines 226-231). -/
def matchesAnyPattern (url : String) (patterns : List String) : Bool :=
  patterns.any (fun pattern => patternToRegexTest pattern url)

/-- The browser-agent slice of `Config`:
`config.getBrowserAgentConfig().customConfig.allowedDomains`, which may be
absent (the `?? []` at line 249 supplies the default). -/
structure BrowserCustomConfig where
  allowedDomains : Option (List String)

/-- `isUrlAllowed` (browserSecurity lines 240-272): blocked prefixes always
lose; with no user patterns every non-blocked URL is allowed; otherwise the
URL must match one of the default-or-user patterns. -/
def isUrlAllowed (url : String) (cfg : BrowserCustomConfig) : Bool :=
  if isBlockedUrl url then false
  else
    let userAllowedDomains := cfg.allowedDomains.getD []
    if userAllowedDomains.isEmpty then true
    else matchesAnyPattern url (DEFAULT_ALLOWED_PATTERNS ++ userAllowedDomains)

/-! ### Rate limiter (`ActionRateLimiter`, browserSecurity lines 315-395) -/

/-- Rate limiting configuration. -/
structure RateLimitConfig where
  maxActionsPerMinute : Nat
  maxNavigationsPerMinute : Nat
deriving DecidableEq, Repr

/-- Default rate limits (browserSecurity lines 323-326). -/
def DEFAULT_RATE_LIMITS : RateLimitConfig :=
  { maxActionsPerMinute := 60, maxNavigationsPerMinute := 10 }

/-- State of an `ActionRateLimiter`: the two timestamp windows (milliseconds,
as returned by `Date.now()`, modelled as `Int`) and the configured limits. -/
structure ActionRateLimiter where
  actionTimestamps : List Int
  navigationTimestamps : List Int
  limits : RateLimitConfig
deriving DecidableEq, Repr

/-- The constructor `new ActionRateLimiter(limits)`: both windows empty. -/
def ActionRateLimiter.init (limits : RateLimitConfig) : ActionRateLimiter :=
  { actionTimestamps := [], navigationTimestamps := [], limits := limits }

/-- `recordAction` (browserSecurity lines 344-361), with `Date.now()` passed
explicitly: prune entries `≤ now - 60000`, reject without recording when the
pruned window already reaches the limit, otherwise append `now`. -/
def ActionRateLimiter.recordAction (st : ActionRateLimiter) (now : Int) :
    Bool × ActionRateLimiter :=
  let oneMinuteAgo := now - 60000
  let pruned := st.actionTimestamps.filter (fun t => oneMinuteAgo < t)
  if st.limits.maxActionsPerMinute ≤ pruned.length then
    (false, { st with actionTimestamps := pruned })
  else
    (true, { st with actionTimestamps := pruned ++ [now] })

/-- `recordNavigation` (browserSecurity lines 367-386): same discipline on the
navigation window. -/
def ActionRateLimiter.recordNavigation (st : ActionRateLimiter) (now : Int) :
    Bool × ActionRateLimiter :=
  let oneMinuteAgo := now - 60000
  let pruned := st.navigationTimestamps.filter (fun t => oneMinuteAgo < t)
  if st.limits.maxNavigationsPerMinute ≤ pruned.length then
    (false, { st with navigationTimestamps := pruned })
  else
    (true, { st with navigationTimestamps := pruned ++ [now] })

/-- `reset` (browserSecurity lines 391-394). -/
def ActionRateLimiter.reset (st : ActionRateLimiter) : ActionRateLimiter :=
  { st with actionTimestamps := [], navigationTimestamps := [] }

/-- Run a sequence of `recordAction` calls at the given times, collecting the
returned booleans. -/
def runActions (st : ActionRateLimiter) : List Int → List Bool × ActionRateLimiter
  | [] => ([], st)
  | t :: ts =>
    let r := st.recordAction t
    let rest := runActions r.2 ts
    (r.1 :: rest.1, rest.2)

/-- Run a sequence of `recordNavigation` calls at the given times. -/
def runNavigations (st : ActionRateLimiter) : List Int → List Bool × ActionRateLimiter
  | [] => ([], st)
  | t :: ts =>
    let r := st.recordNavigation t
    let rest := runNavigations r.2 ts
    (r.1 :: rest.1, rest.2)

/-! ### Overlay detection (`overlayDetection.ts`) -/

/-- Result of overlay detection (overlayDetection lines 20-24). -/
structure OverlayDetectionResult where
  hasOverlay : Bool
  overlayInfo : String
  suggestedAction : String
deriving DecidableEq, Repr

/-- Token of the small regex fragment language used by the overlay and
close-button patterns: a literal character (compared case-insensitively, as
all the patterns carry the `i` flag or contain no cased letters), `\s*`, or a
`\b` word boundary. -/
inductive RTok where
  | ch (c : Char)
  | wsStar
  | wordB

/-- Literal token sequence for a string. -/
def lit (s : String) : List RTok := s.data.map RTok.ch

/-- JavaScript `\s` (the whitespace characters relevant here). -/
def wsCharJS (c : Char) : Bool :=
  c = ' ' || c = '\t' || c = '\n' || c = '\r' || c = '\x0b' || c = '\x0c' ||
  c = ' ' || c = '﻿'

/-- JavaScript `\w` = `[A-Za-z0-9_]`. -/
def wordCharJS (c : Char) : Bool := c.isAlphanum || c = '_'

/-- Word-characterhood of the character before the current position (`none` at
the start of the input). -/
def optWord : Option Char → Bool
  | none => false
  | some c => wordCharJS c

/-- A `\b` boundary holds when exactly one side of the position is a word
character. -/
def atBoundary (prev : Option Char) (s : List Char) : Bool :=
  optWord prev != (match s with | [] => false | c :: _ => wordCharJS c)

/-- Fuel-indexed matcher behind `seqMatch`.  Every recursive call shrinks
`ts.length + s.length`, so the fuel supplied by `seqMatch` is never
exhausted.  `\s*` tries consuming whitespace characters one at a time; in
every pattern below `\s*` is followed by a non-whitespace literal, so exactly
one consumption length can succeed and the JS engine's greedy backtracking
yields the same consumed count. -/
def seqMatchF : Nat → Option Char → List RTok → List Char → Option Nat
  | 0, _, _, _ => none
  | _ + 1, _, [], _ => some 0
  | _ + 1, _, .ch _ :: _, [] => none
  | fuel + 1, _, .ch c :: ts, x :: xs =>
    if Char.toLower x = Char.toLower c then (seqMatchF fuel (some x) ts xs).map (· + 1) else none
  | fuel + 1, prev, .wsStar :: ts, s =>
    (match seqMatchF fuel prev ts s with
     | some n => some n
     | none =>
       match s with
       | [] => none
       | c :: cs =>
         if wsCharJS c then (seqMatchF fuel (some c) (.wsStar :: ts) cs).map (· + 1) else none)
  | fuel + 1, prev, .wordB :: ts, s => if atBoundary prev s then seqMatchF fuel prev ts s else none

/-- Match a token sequence at the head of `s`, returning the number of
characters consumed.  `prev` is the character before the current position
(for `\b`). -/
def seqMatch (prev : Option Char) (ts : List RTok) (s : List Char) : Option Nat :=
  seqMatchF (ts.length + s.length + 1) prev ts s

/-- Try the alternatives of a pattern, in order, at the current position. -/
def altMatchHere (prev : Option Char) : List (List RTok) → List Char → Option Nat
  | [], _ => none
  | a :: rest, s =>
    match seqMatch prev a s with
    | some n => some n
    | none => altMatchHere prev rest s

/-- Leftmost match of an alternation pattern: the text consumed by the first
position (scanning left to right) at which some alternative matches.  This is
`String.prototype.match(regex)[0]` for the non-global regexes involved. -/
def reFind (alts : List (List RTok)) : Option Char → List Char → Option (List Char)
  | prev, [] => match altMatchHere prev alts [] with
    | some _ => some []
    | none => none
  | prev, c :: cs =>
    match altMatchHere prev alts (c :: cs) with
    | some n => some ((c :: cs).take n)
    | none => reFind alts (some c) cs

/-- `regex.test(s)` for an alternation pattern. -/
def reTest (alts : List (List RTok)) (s : String) : Bool :=
  (reFind alts none s.data).isSome

/-- The overlay-indicating patterns (overlayDetection lines 29-49), each with
the source text that `pattern.source` yields. -/
def OVERLAY_PATTERNS : List (String × List (List RTok)) :=
  [("role=\"dialog\"", [lit "role=\"dialog\""]),
   ("role=\"alertdialog\"", [lit "role=\"alertdialog\""]),
   ("role=\"tooltip\"", [lit "role=\"tooltip\""]),
   ("aria-modal=\"true\"", [lit "aria-modal=\"true\""]),
   ("cookie\\s*(banner|consent|notice|policy)",
     [lit "cookie" ++ [.wsStar] ++ lit "banner", lit "cookie" ++ [.wsStar] ++ lit "consent",
      lit "cookie" ++ [.wsStar] ++ lit "notice", lit "cookie" ++ [.wsStar] ++ lit "policy"]),
   ("accept\\s*all\\s*cookies",
     [lit "accept" ++ [.wsStar] ++ lit "all" ++ [.wsStar] ++ lit "cookies"]),
   ("we\\s*use\\s*cookies", [lit "we" ++ [.wsStar] ++ lit "use" ++ [.wsStar] ++ lit "cookies"]),
   ("privacy\\s*settings", [lit "privacy" ++ [.wsStar] ++ lit "settings"]),
   ("newsletter\\s*(sign\\s*up|popup)",
     [lit "newsletter" ++ [.wsStar] ++ lit "sign" ++ [.wsStar] ++ lit "up",
      lit "newsletter" ++ [.wsStar] ++ lit "popup"]),
   ("subscribe\\s*to", [lit "subscribe" ++ [.wsStar] ++ lit "to"]),
   ("sign\\s*up\\s*for", [lit "sign" ++ [.wsStar] ++ lit "up" ++ [.wsStar] ++ lit "for"]),
   ("modal|popup|overlay|lightbox", [lit "modal", lit "popup", lit "overlay", lit "lightbox"]),
   ("close\\s*(button|modal|dialog)",
     [lit "close" ++ [.wsStar] ++ lit "button", lit "close" ++ [.wsStar] ++ lit "modal",
      lit "close" ++ [.wsStar] ++ lit "dialog"]),
   ("dismiss|got\\s*it|no\\s*thanks|maybe\\s*later",
     [lit "dismiss", lit "got" ++ [.wsStar] ++ lit "it",
      lit "no" ++ [.wsStar] ++ lit "thanks", lit "maybe" ++ [.wsStar] ++ lit "later"])]

/-- The close-button patterns (overlayDetection lines 54-64). -/
def CLOSE_BUTTON_PATTERNS : List (List (List RTok)) :=
  [[lit "×", lit "✕", lit "✖", lit "⨉", lit "⨯"],
   [[.wordB] ++ lit "close" ++ [.wordB]],
   [[.wordB] ++ lit "dismiss" ++ [.wordB]],
   [[.wordB] ++ lit "cancel" ++ [.wordB]],
   [[.wordB] ++ lit "got" ++ [.wsStar] ++ lit "it" ++ [.wordB]],
   [[.wordB] ++ lit "no" ++ [.wsStar] ++ lit "thanks" ++ [.wordB]],
   [[.wordB] ++ lit "accept" ++ [.wordB]],
   [[.wordB] ++ lit "I" ++ [.wsStar] ++ lit "agree" ++ [.wordB]],
   [[.wordB] ++ lit "continue" ++ [.wordB]]]

/-- `detectBlockingOverlays` (overlayDetection lines 72-117): collect the
sources of matching overlay patterns; if none match, no overlay; otherwise
build `overlayInfo` from the first three sources and a `suggestedAction` from
the first three close-button matches (or the generic instruction). -/
def detectBlockingOverlays (snapshot : String) : OverlayDetectionResult :=
  let overlaysFound := (OVERLAY_PATTERNS.filter (fun p => reTest p.2 snapshot)).map Prod.fst
  if overlaysFound.isEmpty then
    { hasOverlay := false, overlayInfo := "", suggestedAction := "" }
  else
    let closeButtons :=
      CLOSE_BUTTON_PATTERNS.filterMap (fun p => (reFind p none snapshot.data).map String.mk)
    let overlayInfo := "Detected overlay patterns: " ++ String.intercalate ", " (overlaysFound.take 3)
    let suggestedAction :=
      if closeButtons.isEmpty then
        "Look for a close button (×, Close, Dismiss, Got it) and click it to dismiss the overlay."
      else
        "Found potential close buttons: " ++ String.intercalate ", " (closeButtons.take 3) ++
          ". Click one to dismiss the overlay."
    { hasOverlay := true, overlayInfo := overlayInfo, suggestedAction := suggestedAction }

/-- `wasActionBlockedByOverlay` (overlayDetection lines 145-160). -/
def wasActionBlockedByOverlay (beforeSnapshot afterSnapshot : String) : Bool :=
  let beforeDetection := detectBlockingOverlays beforeSnapshot
  let afterDetection := detectBlockingOverlays afterSnapshot
  if beforeDetection.hasOverlay && afterDetection.hasOverlay then
    beforeDetection.overlayInfo == afterDetection.overlayInfo
  else
    false

/-! ### Browser action primitives (`BrowserTools`, second document of
`browserLogger.test.ts`) -/

/-- A viewport, as returned by `page.viewportSize()` or the
`window.innerWidth/innerHeight` fallback. -/
structure Viewport where
  width : Int
  height : Int
deriving DecidableEq, Repr

/-- Behaviour of the driver page as observed by one `BrowserTools` call.
Each field models one kind of driver call; `Except.error` models a rejected
promise (a thrown driver-level failure). -/
structure Page where
  pageUrl : String
  gotoResult : String → Except String Unit
  evalResult : Except String Unit
  viewportSize : Option Viewport
  evalViewport : Except String (Option Viewport)
  evalLabel : Except String (Option String)
  clickResult : Except String Unit

/-- Result shape of the browser action primitives
(`ToolResult` in browserTools: `{ output?, error?, url? }`). -/
structure BrowserToolResult where
  output : Option String := none
  error : Option String := none
  url : String
deriving DecidableEq, Repr

/-- `BrowserTools.navigate` (browserTools lines 313-318): show the overlay
message (a `page.evaluate`), then `page.goto(url)` — with no `try`/`catch`
around either call — then return `{ output, url }`. -/
def BrowserTools.navigate (page : Page) (url : String) : Except String BrowserToolResult := do
  page.evalResult
  page.gotoResult url
  pure { output := some ("Navigated to " ++ url), url := page.pageUrl }

/-- `BrowserTools.getViewportSize` (browserTools lines 320-329):
`page.viewportSize()`, falling back to a `page.evaluate` of the window
dimensions. -/
def BrowserTools.getViewportSize (page : Page) : Except String (Option Viewport) :=
  match page.viewportSize with
  | some v => pure (some v)
  | none => page.evalViewport

/-- `BrowserTools.clickAt` (browserTools lines 348-368): with a viewport, move
the cursor (`page.evaluate`), read the element label (`page.evaluate`), show
the overlay (`page.evaluate`), click (`page.mouse.click` at coordinates
scaled by `(v / 1000) * dimension`), animate (`page.evaluate`) and return
`{ output: 'Clicked', url }`; without a viewport return
`{ error: 'Viewport not available', url }`.  The floating-point coordinate
scaling does not influence which driver calls run, so the model keeps the
normalized coordinates abstract. -/
def BrowserTools.clickAt (page : Page) (_x _y : Int) : Except String BrowserToolResult := do
  let viewport ← BrowserTools.getViewportSize page
  match viewport with
  | some _ => do
    page.evalResult
    let _ ← page.evalLabel
    page.evalResult
    page.clickResult
    page.evalResult
    pure { output := some "Clicked", url := page.pageUrl }
  | none => pure { output := none, error := some "Viewport not available", url := page.pageUrl }

/-- A page whose `goto` rejects (e.g. a navigation error from the driver) but
whose `evaluate` calls succeed. -/
def pageGotoFails : Page :=
  { pageUrl := "https://example.com"
    gotoResult := fun _ => .error "net::ERR_CONNECTION_REFUSED"
    evalResult := .ok ()
    viewportSize := some { width := 1000, height := 1000 }
    evalViewport := .ok (some { width := 1000, height := 1000 })
    evalLabel := .ok none
    clickResult := .ok () }

/-- A page whose synchronous `viewportSize()` is `null` and whose fallback
`page.evaluate` resolves to `null` as well, with all other calls succeeding. -/
def pageNoViewport : Page :=
  { pageUrl := "https://example.com"
    gotoResult := fun _ => .ok ()
    evalResult := .ok ()
    viewportSize := none
    evalViewport := .ok none
    evalLabel := .ok none
    clickResult := .ok () }

/-! ## Theorems -/

/-- C1: after the pending confirmation is resolved with `Cancel` (that is,
`onConfirm` was called with `Cancel`), `execute` returns the structured
cancellation result (`returnDisplay` `'Cancelled'`, `llmContent` reporting
the user cancelled) and performs no side effect — no `addPolicyRule` and no
`setApprovalMode` call — for every configuration and every parameter set,
including parameter sets that supply a path. -/
theorem enterPlanMode_cancel_no_side_effects (cfg : ConfigModel) (params : EnterPlanModeParams) :
    EnterPlanMode.execute cfg params (EnterPlanMode.onConfirm .cancel) =
      { result := { llmContent := "User cancelled entering Plan Mode."
                    returnDisplay := "Cancelled" }
        addedRules := []
        approvalModeSet := none } := rfl

/-- C2: the result of `shouldConfirmExecute` is determined solely by the
policy decision: `ALLOW` gives `false` (no prompt), `DENY` throws the
policy-denial error (the method body contains no `setApprovalMode` or
`addPolicyRule` call, so no state changes before the throw), and `ASK_USER`
gives the structured request with type `'info'`, title `'Enter Plan Mode'`, a
human-readable prompt, and the `onConfirm` callback that records the
outcome. -/
theorem enterPlanMode_confirmation_protocol :
    (∀ d n : String, EnterPlanMode.shouldConfirmExecute .allow d n = .ok .noConfirmation) ∧
    (∀ d n : String, EnterPlanMode.shouldConfirmExecute .deny d n =
      .error ("Tool execution for \"" ++ (if d.isEmpty then n else d) ++ "\" denied by policy.")) ∧
    (∀ d n : String, EnterPlanMode.shouldConfirmExecute .askUser d n =
      .ok (.info "info" "Enter Plan Mode"
        "This will restrict the agent to read-only tools to allow for safe planning.")) ∧
    (∀ o : ToolConfirmationOutcome, EnterPlanMode.onConfirm o = some o) :=
  ⟨fun _ _ => rfl, fun _ _ => rfl, fun _ _ => rfl, fun _ => rfl⟩

/-- C3 (code bug): with target directory `/app` and the relative parameter
path `conductor`, the injected rule's pattern is built from the resolved
absolute path `/app/conductor`; it matches the serialized arguments
`"file_path":"/app/conductor/product.md"` but does not match the relative
serialized arguments `"file_path":"conductor/product.md"`, which the
repository's own test (`should allow relative paths in policy rules when
relative path is provided`) requires to match. -/
theorem planRule_relative_path_mismatch :
    pathResolve "/app" "conductor" = "/app/conductor" ∧
    (EnterPlanMode.execute { targetDir := "/app", validatePathAccess := fun _ => none }
        { reason := none, path := some "conductor", allowed_tools := none } none).addedRules =
      [planModeRule "/app/conductor" "write_file", planModeRule "/app/conductor" "replace"] ∧
    planArgsMatch "/app/conductor" "\"file_path\":\"/app/conductor/product.md\"" = true ∧
    planArgsMatch "/app/conductor" "\"file_path\":\"conductor/product.md\"" = false := by
  refine ⟨rfl, rfl, ?_, ?_⟩ <;> decide

/-- C4: when the path-validation collaborator returns an error string for the
resolved absolute path, `execute` returns the structured error result
(`llmContent` `'Error: <message>'`, `returnDisplay` `'Error: Invalid path'`)
without throwing, adds no policy rule and sets no approval mode. -/
theorem enterPlanMode_path_validation_error (cfg : ConfigModel) (params : EnterPlanModeParams)
    (oc : Option ToolConfirmationOutcome) (p err : String)
    (hoc : oc ≠ some .cancel) (hp : params.path = some p) (hne : p.isEmpty = false)
    (hv : cfg.validatePathAccess (pathResolve cfg.targetDir p) = some err) :
    EnterPlanMode.execute cfg params oc =
      { result := { llmContent := "Error: " ++ err, returnDisplay := "Error: Invalid path" }
        addedRules := []
        approvalModeSet := none } := by
  obtain ⟨reason, path?, tools?⟩ := params
  have hp' : path? = some p := hp
  subst hp'
  cases oc with
  | none => simp [EnterPlanMode.execute, strTruthy, hne, hv]
  | some o =>
    cases o with
    | proceedOnce => simp [EnterPlanMode.execute, strTruthy, hne, hv]
    | proceedAlways => simp [EnterPlanMode.execute, strTruthy, hne, hv]
    | cancel => exact absurd rfl hoc

/-- C4 witness: a concrete run in which validation fails. -/
theorem enterPlanMode_path_validation_error_witness :
    EnterPlanMode.execute { targetDir := "/app", validatePathAccess := fun _ => some "Access denied" }
        { reason := none, path := some "/forbidden/path", allowed_tools := none } none =
      { result := { llmContent := "Error: Access denied", returnDisplay := "Error: Invalid path" }
        addedRules := []
        approvalModeSet := none } :=
  enterPlanMode_path_validation_error
    { targetDir := "/app", validatePathAccess := fun _ => some "Access denied" }
    { reason := none, path := some "/forbidden/path", allowed_tools := none }
    none "/forbidden/path" "Access denied"
    (by decide) rfl rfl rfl

/-- C5: a URL whose lowercased form starts with one of the fixed blocked
prefixes is rejected by `isUrlAllowed` regardless of the allow configuration;
in particular `file:///etc/passwd` is rejected for every configuration. -/
theorem urlGuard_blocked_always_rejected :
    (∀ (url : String) (cfg : BrowserCustomConfig),
      isBlockedUrl url = true → isUrlAllowed url cfg = false) ∧
    (∀ cfg : BrowserCustomConfig, isUrlAllowed "file:///etc/passwd" cfg = false) := by
  constructor
  · intro url cfg h
    simp [isUrlAllowed, h]
  · intro cfg
    have h : isBlockedUrl "file:///etc/passwd" = true := by decide
    simp [isUrlAllowed, h]

/-- C5 witness: an uppercase `FILE:` URL is rejected even when the user allow
list is non-empty. -/
theorem urlGuard_blocked_always_rejected_witness :
    isUrlAllowed "FILE:///etc/passwd" { allowedDomains := some ["https://good.com"] } = false :=
  urlGuard_blocked_always_rejected.1 "FILE:///etc/passwd"
    { allowedDomains := some ["https://good.com"] } (by decide)

/-- C6: for a non-blocked URL, zero user patterns means the URL is accepted;
with user patterns present the URL is accepted iff it matches some pattern of
the union of the fixed defaults and the user patterns under the
case-insensitive, prefix-anchored wildcard semantics of `patternToRegex`; in
particular with user pattern `https://*.test.org`, `https://sub.test.org/path`
is accepted and `https://blocked.com` is rejected. -/
theorem urlGuard_allow_semantics :
    (∀ (url : String) (cfg : BrowserCustomConfig), isBlockedUrl url = false →
      cfg.allowedDomains.getD [] = [] → isUrlAllowed url cfg = true) ∧
    (∀ (url : String) (ds : List String), isBlockedUrl url = false → ds ≠ [] →
      (isUrlAllowed url { allowedDomains := some ds } = true ↔
        ∃ p ∈ DEFAULT_ALLOWED_PATTERNS ++ ds, patternToRegexTest p url = true)) ∧
    isUrlAllowed "https://sub.test.org/path" { allowedDomains := some ["https://*.test.org"] } = true ∧
    isUrlAllowed "https://blocked.com" { allowedDomains := some ["https://*.test.org"] } = false := by
  refine ⟨?_, ?_, by decide, by decide⟩
  · intro url cfg hb hd
    simp [isUrlAllowed, hb, hd]
  · intro url ds hb hds
    have h1 : isUrlAllowed url { allowedDomains := some ds } =
        matchesAnyPattern url (DEFAULT_ALLOWED_PATTERNS ++ ds) := by
      simp [isUrlAllowed, hb, List.isEmpty_iff, hds]
    rw [h1]
    unfold matchesAnyPattern
    exact List.any_eq_true

/-- C6 witness: a concrete non-blocked URL accepted through a user pattern. -/
theorem urlGuard_allow_semantics_witness :
    isUrlAllowed "https://wiki.example.org/a" { allowedDomains := some ["https://wiki.*"] } = true :=
  (urlGuard_allow_semantics.2.1 "https://wiki.example.org/a" ["https://wiki.*"]
      (by decide) (by decide)).mpr ⟨"https://wiki.*", by decide, by decide⟩

/-- C8 counterexample: `navigate` does not catch a failing `page.goto`; the
rejection propagates out of the action primitive instead of being returned as
`{ error, url }`. -/
theorem browserTools_navigate_raises_counterexample :
    BrowserTools.navigate pageGotoFails "https://example.test" =
      .error "net::ERR_CONNECTION_REFUSED" := rfl

/-- C8 amended: only the viewport-unavailable case is handled inside the
action layer — `clickAt` (likewise `typeTextAt`/`dragAndDrop`) returns
`{ error: 'Viewport not available', url }` without throwing — while
driver-level exceptions such as a failing `page.goto` propagate out of
`BrowserTools` (they are only converted to an error `ToolResult` one layer
up, in `BrowserToolInvocation.execute`). -/
theorem browserTools_error_handling_amended :
    (∀ (page : Page) (x y : Int), page.viewportSize = none → page.evalViewport = .ok none →
      BrowserTools.clickAt page x y =
        .ok { output := none, error := some "Viewport not available", url := page.pageUrl }) ∧
    (∀ (page : Page) (url msg : String), page.evalResult = .ok () →
      page.gotoResult url = .error msg →
      BrowserTools.navigate page url = .error msg) := by
  constructor
  · intro page x y hv he
    unfold BrowserTools.clickAt BrowserTools.getViewportSize
    rw [hv, he]
    rfl
  · intro page url msg he hg
    unfold BrowserTools.navigate
    rw [he, hg]
    rfl

/-- C8 amended witness: concrete pages exercising both conjuncts. -/
theorem browserTools_error_handling_amended_witness :
    BrowserTools.clickAt pageNoViewport 500 500 =
      .ok { output := none, error := some "Viewport not available", url := "https://example.com" } ∧
    BrowserTools.navigate pageGotoFails "https://a.test" = .error "net::ERR_CONNECTION_REFUSED" :=
  ⟨browserTools_error_handling_amended.1 pageNoViewport 500 500 rfl rfl,
   browserTools_error_handling_amended.2 pageGotoFails "https://a.test"
     "net::ERR_CONNECTION_REFUSED" rfl rfl⟩

/-- C9: `wasActionBlockedByOverlay before after` is true exactly when both
snapshots detect an overlay and the two detections' `overlayInfo` signatures
coincide; in particular it is false whenever the after-snapshot detects no
overlay. -/
theorem overlay_wasBlocked_iff :
    (∀ b a : String,
      wasActionBlockedByOverlay b a = true ↔
        ((detectBlockingOverlays b).hasOverlay = true ∧
         (detectBlockingOverlays a).hasOverlay = true ∧
         (detectBlockingOverlays b).overlayInfo = (detectBlockingOverlays a).overlayInfo)) ∧
    (∀ b a : String, (detectBlockingOverlays a).hasOverlay = false →
      wasActionBlockedByOverlay b a = false) := by
  constructor
  · intro b a
    cases hb : (detectBlockingOverlays b).hasOverlay <;>
      cases ha : (detectBlockingOverlays a).hasOverlay <;>
      simp [wasActionBlockedByOverlay, hb, ha]
  · intro b a ha
    simp [wasActionBlockedByOverlay, ha]

/-- C9 witness: an overlay before and a clean page after is not reported as
blocked. -/
theorem overlay_wasBlocked_iff_witness :
    wasActionBlockedByOverlay "role=\"dialog\"" "hi" = false :=
  overlay_wasBlocked_iff.2 "role=\"dialog\"" "hi" (by decide)

/-- Helper for C7: starting from action window `pre`, a nondecreasing run of
calls that all fall inside one 60-second span and fit under the limit all
succeed, and the window afterwards holds exactly `pre ++ ts`. -/
theorem runActions_all_ok (limits : RateLimitConfig) (nav : List Int) :
    ∀ (ts pre : List Int),
      List.Pairwise (· ≤ ·) (pre ++ ts) →
      (∀ x ∈ pre ++ ts, ∀ y ∈ pre ++ ts, x ≤ y → y - x < 60000) →
      pre.length + ts.length ≤ limits.maxActionsPerMinute →
      runActions ⟨pre, nav, limits⟩ ts = (List.replicate ts.length true, ⟨pre ++ ts, nav, limits⟩) := by
  intro ts
  induction ts with
  | nil =>
    intro pre _ _ _
    simp [runActions]
  | cons a ts' ih =>
    intro pre hpw hwin hlen
    have hmem_a : a ∈ pre ++ a :: ts' := by simp
    have hx_le_a : ∀ x ∈ pre, x ≤ a :=
      fun x hx => (List.pairwise_append.mp hpw).2.2 x hx a (by simp)
    have hfilter : pre.filter (fun t => decide (a - 60000 < t)) = pre := by
      apply List.filter_eq_self.mpr
      intro x hx
      have h1 : a - x < 60000 := hwin x (by simp [hx]) a hmem_a (hx_le_a x hx)
      simp only [decide_eq_true_eq]
      omega
    have hpre_lt : ¬ (limits.maxActionsPerMinute ≤ pre.length) := by
      simp only [List.length_cons] at hlen
      omega
    have hrec : ActionRateLimiter.recordAction ⟨pre, nav, limits⟩ a =
        (true, ⟨pre ++ [a], nav, limits⟩) := by
      simp [ActionRateLimiter.recordAction, hfilter, hpre_lt]
    have hassoc : (pre ++ [a]) ++ ts' = pre ++ a :: ts' := by simp
    have ih' := ih (pre ++ [a]) (by rw [hassoc]; exact hpw)
      (by rw [hassoc]; exact hwin)
      (by simp only [List.length_append, List.length_cons, List.length_nil] at hlen ⊢; omega)
    simp [runActions, hrec, ih', List.replicate_succ, hassoc]

/-- Helper for C7: when the pruned window already reaches the limit, the call
is rejected and the (pruned) window is unchanged. -/
theorem recordAction_reject (limits : RateLimitConfig) (nav ts : List Int) (t : Int)
    (hlen : limits.maxActionsPerMinute ≤ ts.length)
    (hwin : ∀ x ∈ ts, t - 60000 < x) :
    ActionRateLimiter.recordAction ⟨ts, nav, limits⟩ t = (false, ⟨ts, nav, limits⟩) := by
  have hfilter : ts.filter (fun x => decide (t - 60000 < x)) = ts :=
    List.filter_eq_self.mpr (fun x hx => by simpa using hwin x hx)
  simp [ActionRateLimiter.recordAction, hfilter, hlen]

/-- Helper for C7: once the first recorded timestamp has aged out of the
window, the next call is accepted again. -/
theorem recordAction_accept_after (limits : RateLimitConfig) (nav : List Int)
    (t1 : Int) (rest : List Int) (t' : Int)
    (hN : rest.length + 1 = limits.maxActionsPerMinute)
    (ht' : t1 + 60000 < t') :
    (ActionRateLimiter.recordAction ⟨t1 :: rest, nav, limits⟩ t').1 = true := by
  have ht1 : decide (t' - 60000 < t1) = false := by
    simp only [decide_eq_false_iff_not]
    omega
  have hfl : (t1 :: rest).filter (fun x => decide (t' - 60000 < x)) =
      rest.filter (fun x => decide (t' - 60000 < x)) := by
    simp [List.filter_cons, ht1]
  have hlen : (rest.filter (fun x => decide (t' - 60000 < x))).length <
      limits.maxActionsPerMinute := by
    have := List.length_filter_le (fun x => decide (t' - 60000 < x)) rest
    omega
  simp [ActionRateLimiter.recordAction, hfl, Nat.not_le.mpr hlen]

/-- Helper for C7 (navigation mirror of `runActions_all_ok`). -/
theorem runNavigations_all_ok (limits : RateLimitConfig) (act : List Int) :
    ∀ (ts pre : List Int),
      List.Pairwise (· ≤ ·) (pre ++ ts) →
      (∀ x ∈ pre ++ ts, ∀ y ∈ pre ++ ts, x ≤ y → y - x < 60000) →
      pre.length + ts.length ≤ limits.maxNavigationsPerMinute →
      runNavigations ⟨act, pre, limits⟩ ts =
        (List.replicate ts.length true, ⟨act, pre ++ ts, limits⟩) := by
  intro ts
  induction ts with
  | nil =>
    intro pre _ _ _
    simp [runNavigations]
  | cons a ts' ih =>
    intro pre hpw hwin hlen
    have hmem_a : a ∈ pre ++ a :: ts' := by simp
    have hx_le_a : ∀ x ∈ pre, x ≤ a :=
      fun x hx => (List.pairwise_append.mp hpw).2.2 x hx a (by simp)
    have hfilter : pre.filter (fun t => decide (a - 60000 < t)) = pre := by
      apply List.filter_eq_self.mpr
      intro x hx
      have h1 : a - x < 60000 := hwin x (by simp [hx]) a hmem_a (hx_le_a x hx)
      simp only [decide_eq_true_eq]
      omega
    have hpre_lt : ¬ (limits.maxNavigationsPerMinute ≤ pre.length) := by
      simp only [List.length_cons] at hlen
      omega
    have hrec : ActionRateLimiter.recordNavigation ⟨act, pre, limits⟩ a =
        (true, ⟨act, pre ++ [a], limits⟩) := by
      simp [ActionRateLimiter.recordNavigation, hfilter, hpre_lt]
    have hassoc : (pre ++ [a]) ++ ts' = pre ++ a :: ts' := by simp
    have ih' := ih (pre ++ [a]) (by rw [hassoc]; exact hpw)
      (by rw [hassoc]; exact hwin)
      (by simp only [List.length_append, List.length_cons, List.length_nil] at hlen ⊢; omega)
    simp [runNavigations, hrec, ih', List.replicate_succ, hassoc]

/-- Helper for C7 (navigation mirror of `recordAction_reject`). -/
theorem recordNavigation_reject (limits : RateLimitConfig) (act ts : List Int) (t : Int)
    (hlen : limits.maxNavigationsPerMinute ≤ ts.length)
    (hwin : ∀ x ∈ ts, t - 60000 < x) :
    ActionRateLimiter.recordNavigation ⟨act, ts, limits⟩ t = (false, ⟨act, ts, limits⟩) := by
  have hfilter : ts.filter (fun x => decide (t - 60000 < x)) = ts :=
    List.filter_eq_self.mpr (fun x hx => by simpa using hwin x hx)
  simp [ActionRateLimiter.recordNavigation, hfilter, hlen]

/-- Helper for C7 (navigation mirror of `recordAction_accept_after`). -/
theorem recordNavigation_accept_after (limits : RateLimitConfig) (act : List Int)
    (t1 : Int) (rest : List Int) (t' : Int)
    (hN : rest.length + 1 = limits.maxNavigationsPerMinute)
    (ht' : t1 + 60000 < t') :
    (ActionRateLimiter.recordNavigation ⟨act, t1 :: rest, limits⟩ t').1 = true := by
  have ht1 : decide (t' - 60000 < t1) = false := by
    simp only [decide_eq_false_iff_not]
    omega
  have hfl : (t1 :: rest).filter (fun x => decide (t' - 60000 < x)) =
      rest.filter (fun x => decide (t' - 60000 < x)) := by
    simp [List.filter_cons, ht1]
  have hlen : (rest.filter (fun x => decide (t' - 60000 < x))).length <
      limits.maxNavigationsPerMinute := by
    have := List.length_filter_le (fun x => decide (t' - 60000 < x)) rest
    omega
  simp [ActionRateLimiter.recordNavigation, hfl, Nat.not_le.mpr hlen]

/-- C7: with action limit `N`, `N` successful `recordAction` calls within one
60-second window fill the window; the next call inside that window returns
`false` and appends nothing (the pruned window is unchanged); once more than
60 seconds have passed since the first recorded call, a subsequent call
returns `true` again.  The same holds for `recordNavigation` with the
navigation limit, and both windows are pruned of entries older than
`now - 60s` on every call (visible in the unchanged-after-reject window). -/
theorem rateLimiter_window_behavior
    (limits : RateLimitConfig)
    (t1 : Int) (rest : List Int) (t t' : Int)
    (u1 : Int) (urest : List Int) (u u' : Int)
    (hA : (t1 :: rest).length = limits.maxActionsPerMinute)
    (hApw : List.Pairwise (· ≤ ·) ((t1 :: rest) ++ [t]))
    (hAwin : ∀ x ∈ t1 :: rest, t - x < 60000)
    (hAt' : t1 + 60000 < t')
    (hN : (u1 :: urest).length = limits.maxNavigationsPerMinute)
    (hNpw : List.Pairwise (· ≤ ·) ((u1 :: urest) ++ [u]))
    (hNwin : ∀ x ∈ u1 :: urest, u - x < 60000)
    (hNu' : u1 + 60000 < u') :
    (runActions (ActionRateLimiter.init limits) (t1 :: rest)).1 =
        List.replicate limits.maxActionsPerMinute true ∧
    (runActions (ActionRateLimiter.init limits) (t1 :: rest)).2.actionTimestamps = t1 :: rest ∧
    ((runActions (ActionRateLimiter.init limits) (t1 :: rest)).2.recordAction t).1 = false ∧
    ((runActions (ActionRateLimiter.init limits) (t1 :: rest)).2.recordAction t).2.actionTimestamps
        = t1 :: rest ∧
    (((runActions (ActionRateLimiter.init limits) (t1 :: rest)).2.recordAction t).2.recordAction
        t').1 = true ∧
    (runNavigations (ActionRateLimiter.init limits) (u1 :: urest)).1 =
        List.replicate limits.maxNavigationsPerMinute true ∧
    (runNavigations (ActionRateLimiter.init limits) (u1 :: urest)).2.navigationTimestamps
        = u1 :: urest ∧
    ((runNavigations (ActionRateLimiter.init limits) (u1 :: urest)).2.recordNavigation u).1
        = false ∧
    ((runNavigations (ActionRateLimiter.init limits)
        (u1 :: urest)).2.recordNavigation u).2.navigationTimestamps = u1 :: urest ∧
    (((runNavigations (ActionRateLimiter.init limits) (u1 :: urest)).2.recordNavigation
        u).2.recordNavigation u').1 = true := by
  have hApw' : List.Pairwise (· ≤ ·) (t1 :: rest) := (List.pairwise_append.mp hApw).1
  have hAle_t : ∀ y ∈ t1 :: rest, y ≤ t :=
    fun y hy => (List.pairwise_append.mp hApw).2.2 y hy t (by simp)
  have hAwin2 : ∀ x ∈ ([] : List Int) ++ t1 :: rest, ∀ y ∈ ([] : List Int) ++ t1 :: rest,
      x ≤ y → y - x < 60000 := by
    intro x hx y hy _
    simp only [List.nil_append] at hx hy
    have h1 := hAwin x hx
    have h2 := hAle_t y hy
    omega
  have hrunA := runActions_all_ok limits [] (t1 :: rest) [] (by simpa using hApw') hAwin2
    (by simp [← hA])
  have hrejA := recordAction_reject limits [] (t1 :: rest) t (le_of_eq hA.symm)
    (fun x hx => by have := hAwin x hx; omega)
  have haccA := recordAction_accept_after limits [] t1 rest t' (by simpa using hA) hAt'
  have hNpw' : List.Pairwise (· ≤ ·) (u1 :: urest) := (List.pairwise_append.mp hNpw).1
  have hNle_u : ∀ y ∈ u1 :: urest, y ≤ u :=
    fun y hy => (List.pairwise_append.mp hNpw).2.2 y hy u (by simp)
  have hNwin2 : ∀ x ∈ ([] : List Int) ++ u1 :: urest, ∀ y ∈ ([] : List Int) ++ u1 :: urest,
      x ≤ y → y - x < 60000 := by
    intro x hx y hy _
    simp only [List.nil_append] at hx hy
    have h1 := hNwin x hx
    have h2 := hNle_u y hy
    omega
  have hrunN := runNavigations_all_ok limits [] (u1 :: urest) [] (by simpa using hNpw') hNwin2
    (by simp [← hN])
  have hrejN := recordNavigation_reject limits [] (u1 :: urest) u (le_of_eq hN.symm)
    (fun x hx => by have := hNwin x hx; omega)
  have haccN := recordNavigation_accept_after limits [] u1 urest u' (by simpa using hN) hNu'
  refine ⟨?_, ?_, ?_, ?_, ?_, ?_, ?_, ?_, ?_, ?_⟩ <;>
    simp only [ActionRateLimiter.init, List.nil_append, hrunA, hrejA, hrunN, hrejN] <;>
    simp [hA, hN, haccA, haccN]

/-- C7 witness: limit 2 for both categories; calls at 0, 1 succeed, the call
at 2 is rejected with the window unchanged, and a call at 60001 (more than
60s after the first) succeeds again. -/
theorem rateLimiter_window_behavior_witness :
    (runActions (ActionRateLimiter.init ⟨2, 2⟩) [0, 1]).1 = List.replicate 2 true ∧
    (runActions (ActionRateLimiter.init ⟨2, 2⟩) [0, 1]).2.actionTimestamps = [0, 1] ∧
    ((runActions (ActionRateLimiter.init ⟨2, 2⟩) [0, 1]).2.recordAction 2).1 = false ∧
    ((runActions (ActionRateLimiter.init ⟨2, 2⟩) [0, 1]).2.recordAction 2).2.actionTimestamps
        = [0, 1] ∧
    (((runActions (ActionRateLimiter.init ⟨2, 2⟩) [0, 1]).2.recordAction 2).2.recordAction
        60001).1 = true ∧
    (runNavigations (ActionRateLimiter.init ⟨2, 2⟩) [0, 1]).1 = List.replicate 2 true ∧
    (runNavigations (ActionRateLimiter.init ⟨2, 2⟩) [0, 1]).2.navigationTimestamps = [0, 1] ∧
    ((runNavigations (ActionRateLimiter.init ⟨2, 2⟩) [0, 1]).2.recordNavigation 2).1 = false ∧
    ((runNavigations (ActionRateLimiter.init ⟨2, 2⟩)
        [0, 1]).2.recordNavigation 2).2.navigationTimestamps = [0, 1] ∧
    (((runNavigations (ActionRateLimiter.init ⟨2, 2⟩) [0, 1]).2.recordNavigation
        2).2.recordNavigation 60001).1 = true :=
  rateLimiter_window_behavior ⟨2, 2⟩ 0 [1] 2 60001 0 [1] 2 60001
    (by decide) (by decide) (by decide) (by decide)
    (by decide) (by decide) (by decide) (by decide)

/-- Helper for C10: `stripHead` succeeds exactly on lists beginning with the
stripped part. -/
theorem stripHead_some : ∀ {a b u : List Char}, stripHead a b = some u ↔ b = a ++ u := by
  intro a
  induction a with
  | nil =>
    intro b u
    simp [stripHead]
  | cons c as ih =>
    intro b u
    cases b with
    | nil => simp [stripHead]
    | cons d bs =>
      simp only [stripHead]
      by_cases hcd : c = d
      · subst hcd
        rw [if_pos rfl]
        simp [ih, List.cons_append]
      · rw [if_neg hcd]
        constructor
        · intro h; cases h
        · intro h
          injection h with h1 _
          exact absurd h1.symm hcd

/-- Helper for C10: the unanchored search succeeds exactly when the anchored
match succeeds on some suffix. -/
theorem regexSearch_iff (P : List Char) :
    ∀ s, regexSearch P s = true ↔ ∃ t, t <:+ s ∧ headMatch P t = true := by
  intro s
  induction s with
  | nil =>
    simp only [regexSearch]
    constructor
    · intro h; exact ⟨[], List.suffix_refl [], h⟩
    · rintro ⟨t, hsuf, hm⟩
      rw [List.suffix_nil.mp hsuf] at hm
      exact hm
  | cons c cs ih =>
    simp only [regexSearch, Bool.or_eq_true]
    constructor
    · rintro (h | h)
      · exact ⟨c :: cs, List.suffix_refl _, h⟩
      · obtain ⟨t, hsuf, hm⟩ := ih.mp h
        exact ⟨t, List.suffix_cons_iff.mpr (Or.inr hsuf), hm⟩
    · rintro ⟨t, hsuf, hm⟩
      rcases List.suffix_cons_iff.mp hsuf with rfl | hsuf'
      · exact Or.inl hm
      · exact Or.inr (ih.mpr ⟨t, hsuf', hm⟩)

/-- Helper for C10: a suffix of `A ++ B` is either a suffix of `B` or some
suffix of `A` followed by all of `B`. -/
theorem suffix_append_split : ∀ {A B t : List Char}, t <:+ A ++ B →
    (∃ d, d <:+ A ∧ t = d ++ B) ∨ t <:+ B := by
  intro A
  induction A with
  | nil =>
    intro B t h
    exact Or.inr (by simpa using h)
  | cons a A' ih =>
    intro B t h
    rw [List.cons_append] at h
    rcases List.suffix_cons_iff.mp h with rfl | h'
    · exact Or.inl ⟨a :: A', List.suffix_refl _, by simp⟩
    · rcases ih h' with ⟨d, hd, rfl⟩ | h''
      · exact Or.inl ⟨d, List.suffix_cons_iff.mpr (Or.inr hd), rfl⟩
      · exact Or.inr h''

/-- Helper for C10, list level: for a quote-free granted path `P` and a
quote-free non-empty extension `rr` not starting with `/`, the injected
pattern does not match `"file_path":"<P><rr>"`. -/
theorem regexSearch_sibling_false (P rr : List Char)
    (hrne : rr ≠ []) (hsl : rr.head? ≠ some '/')
    (hPq : '"' ∉ P) (hrq : '"' ∉ rr) :
    regexSearch P (needleFor P ++ (rr ++ ['"'])) = false := by
  have hcntP : P.count '"' = 0 := List.count_eq_zero.mpr hPq
  have hcntR : rr.count '"' = 0 := List.count_eq_zero.mpr hrq
  have h3 : needleHead.count '"' = 3 := by decide
  have hq1 : (['"'] : List Char).count '"' = 1 := by decide
  have key : ∀ t, t <:+ needleFor P ++ (rr ++ ['"']) → headMatch P t = false := by
    intro t hsuf
    cases hstrip : stripHead (needleFor P) t with
    | none => simp [headMatch, hstrip]
    | some u =>
      simp only [headMatch, hstrip]
      have ht : t = needleFor P ++ u := stripHead_some.mp hstrip
      have hcntT : t.count '"' = 3 + u.count '"' := by
        rw [ht]
        simp [needleFor, List.count_append, h3, hcntP]
      rcases suffix_append_split hsuf with ⟨d, hd, htd⟩ | hsufB
      · rcases suffix_append_split (A := needleHead) (B := P) hd with ⟨e, he, hde⟩ | hdP
        · have heq : needleFor P ++ u = (e ++ P) ++ (rr ++ ['"']) := by
            rw [← ht, htd, hde]
          have hmem : e ∈ needleHead.tails := (List.mem_tails e needleHead).mpr he
          have htails : needleHead.tails =
              [['"', 'f', 'i', 'l', 'e', '_', 'p', 'a', 't', 'h', '"', ':', '"'],
               ['f', 'i', 'l', 'e', '_', 'p', 'a', 't', 'h', '"', ':', '"'],
               ['i', 'l', 'e', '_', 'p', 'a', 't', 'h', '"', ':', '"'],
               ['l', 'e', '_', 'p', 'a', 't', 'h', '"', ':', '"'],
               ['e', '_', 'p', 'a', 't', 'h', '"', ':', '"'],
               ['_', 'p', 'a', 't', 'h', '"', ':', '"'],
               ['p', 'a', 't', 'h', '"', ':', '"'],
               ['a', 't', 'h', '"', ':', '"'],
               ['t', 'h', '"', ':', '"'],
               ['h', '"', ':', '"'],
               ['"', ':', '"'],
               [':', '"'],
               ['"'],
               []] := by decide
          rw [htails] at hmem
          simp only [List.mem_cons, List.not_mem_nil, or_false] at hmem
          rcases hmem with rfl | rfl | rfl | rfl | rfl | rfl | rfl | rfl | rfl | rfl | rfl |
            rfl | rfl | rfl
          · -- e is the whole of `"file_path":"`: the genuine occurrence at
            -- position 0; the continuation starts with the first character of
            -- `rr`, which is neither `"` nor `/`.
            simp only [needleFor] at heq
            have hu : u = rr ++ ['"'] := List.append_cancel_left heq
            subst hu
            rcases rr with _ | ⟨c, rr'⟩
            · exact absurd rfl hrne
            · have hc1 : ¬ (c = '"') := fun h => hrq (by simp [h])
              have hc2 : ¬ (c = '/') := fun h => hsl (by simp [h])
              simp [tailOk, List.cons_append, hc1, hc2]
          · exfalso
            simp only [needleFor, needleHead, List.cons_append, List.nil_append,
              List.append_assoc] at heq
            injection heq with h1 _
            exact absurd h1 (by decide)
          · exfalso
            simp only [needleFor, needleHead, List.cons_append, List.nil_append,
              List.append_assoc] at heq
            injection heq with h1 _
            exact absurd h1 (by decide)
          · exfalso
            simp only [needleFor, needleHead, List.cons_append, List.nil_append,
              List.append_assoc] at heq
            injection heq with h1 _
            exact absurd h1 (by decide)
          · exfalso
            simp only [needleFor, needleHead, List.cons_append, List.nil_append,
              List.append_assoc] at heq
            injection heq with h1 _
            exact absurd h1 (by decide)
          · exfalso
            simp only [needleFor, needleHead, List.cons_append, List.nil_append,
              List.append_assoc] at heq
            injection heq with h1 _
            exact absurd h1 (by decide)
          · exfalso
            simp only [needleFor, needleHead, List.cons_append, List.nil_append,
              List.append_assoc] at heq
            injection heq with h1 _
            exact absurd h1 (by decide)
          · exfalso
            simp only [needleFor, needleHead, List.cons_append, List.nil_append,
              List.append_assoc] at heq
            injection heq with h1 _
            exact absurd h1 (by decide)
          · exfalso
            simp only [needleFor, needleHead, List.cons_append, List.nil_append,
              List.append_assoc] at heq
            injection heq with h1 _
            exact absurd h1 (by decide)
          · exfalso
            simp only [needleFor, needleHead, List.cons_append, List.nil_append,
              List.append_assoc] at heq
            injection heq with h1 _
            exact absurd h1 (by decide)
          · -- e = ['"', ':', '"']: second characters disagree
            exfalso
            simp only [needleFor, needleHead, List.cons_append, List.nil_append,
              List.append_assoc] at heq
            injection heq with _ heq2
            injection heq2 with h2 _
            exact absurd h2 (by decide)
          · exfalso
            simp only [needleFor, needleHead, List.cons_append, List.nil_append,
              List.append_assoc] at heq
            injection heq with h1 _
            exact absurd h1 (by decide)
          · -- e = ['"']: only two quotes in `t`, but an occurrence needs three
            exfalso
            rw [htd, hde] at hcntT
            simp only [List.count_append, hcntP, hcntR, hq1] at hcntT
            omega
          · -- e = []: only one quote in `t`
            exfalso
            rw [htd, hde] at hcntT
            simp only [List.count_append, List.nil_append, List.count_nil, hcntP, hcntR,
              hq1] at hcntT
            omega
        · -- the occurrence would sit inside the quote-free `P`
          exfalso
          have hd0 : d.count '"' = 0 := by
            obtain ⟨v, hv⟩ := hdP
            have : v.count '"' + d.count '"' = 0 := by
              rw [← List.count_append, hv, hcntP]
            omega
          rw [htd] at hcntT
          simp only [List.count_append, hd0, hcntR, hq1] at hcntT
          omega
      · -- the occurrence would sit inside `rr ++ ['"']`, which has one quote
        exfalso
        have h1 : t.count '"' ≤ (rr ++ ['"']).count '"' := by
          obtain ⟨v, hv⟩ := hsufB
          rw [← hv, List.count_append]
          omega
        rw [List.count_append, hcntR, hq1] at h1
        omega
  cases hsearch : regexSearch P (needleFor P ++ (rr ++ ['"'])) with
  | false => rfl
  | true =>
    exfalso
    obtain ⟨t, hsuf, hm⟩ := (regexSearch_iff P _).mp hsearch
    rw [key t hsuf] at hm
    cases hm

/-- C10: the injected pattern for a granted absolute path `P` requires the
character after `P` inside `"file_path":"…"` to be the closing quote or `/`;
hence for every sibling path that extends `P` without an intervening `/`
separator (e.g. `P + "2"` or `P + "-secrets"`), the rule does not match the
serialized arguments naming that sibling.  (`P` and the extension are
quote-free, as any path serialized verbatim into the argument string is.) -/
theorem planRule_no_sibling_match (P r : String)
    (hr : r ≠ "") (hslash : r.data.head? ≠ some '/')
    (hPq : '"' ∉ P.data) (hrq : '"' ∉ r.data) :
    planArgsMatch P ("\"file_path\":\"" ++ P ++ r ++ "\"") = false := by
  have hrd : r.data ≠ [] := fun h => hr (String.ext (by rw [h]))
  have hdata : ("\"file_path\":\"" ++ P ++ r ++ "\"").data =
      needleFor P.data ++ (r.data ++ ['"']) := by
    simp only [String.data_append, needleFor]
    simp [needleHead, List.append_assoc]
  unfold planArgsMatch
  rw [hdata]
  exact regexSearch_sibling_false P.data r.data hrd hslash hPq hrq

/-- C10 witness: the grant for `/app/conductor` does not leak to the sibling
`/app/conductor2`. -/
theorem planRule_no_sibling_match_witness :
    planArgsMatch "/app/conductor" ("\"file_path\":\"" ++ "/app/conductor" ++ "2" ++ "\"") = false :=
  planRule_no_sibling_match "/app/conductor" "2" (by decide) (by decide) (by decide) (by decide)
